import Mathlib

/-!
Verification of the stroke-detection Lambda repository.

The Python sources are shallowly embedded: Python float arithmetic is
idealised as real arithmetic, Python dictionaries produced by json.loads
are modelled by an inductive Json type, and Python exceptions are modelled
with the Except monad (a raised exception is an Except.error carrying the
exception class name; the broad try/except of each Lambda handler is the
surrounding match).  String formatting of diagnostic messages is elided
where the source interpolates numbers into f-strings, because no behaviour
depends on those message texts.
-/

namespace StrokeDetection

/-- Model of a Python value as decoded by json.loads: null becomes None,
numbers become floats (idealised as reals), and objects become dicts. -/
inductive Json where
  | null
  | bool (b : Bool)
  | num (x : ℝ)
  | str (s : String)
  | arr (elems : List Json)
  | obj (members : List (String × Json))

/-- Association-list lookup used to model Python dict indexing.  Objects
decoded from JSON have distinct keys, so first-match agrees with dicts. -/
def jlookup : List (String × Json) → String → Option Json
  | [], _ => none
  | (k, v) :: rest, key => if k = key then some v else jlookup rest key

/-- Python d.get(key, default): returns default only when the key is
missing; raises AttributeError when d is not a dict. -/
def dictGetD (j : Json) (key : String) (dflt : Json) : Except String Json :=
  match j with
  | .obj members => .ok ((jlookup members key).getD dflt)
  | _ => .error "AttributeError"

/-- Python d.get(key) combined with an "is not None" test: the result is
none when the key is missing or its value is JSON null (Python None);
raises AttributeError when d is not a dict. -/
def dictGetSome (j : Json) (key : String) : Except String (Option Json) :=
  match j with
  | .obj members =>
      .ok (match jlookup members key with
           | some .null => none
           | some v => some v
           | none => none)
  | _ => .error "AttributeError"

/-- Python d[key]: raises KeyError when the key is missing and TypeError
when d is not a dict. -/
def subscript (j : Json) (key : String) : Except String Json :=
  match j with
  | .obj members =>
      match jlookup members key with
      | some v => .ok v
      | none => .error "KeyError"
  | _ => .error "TypeError"

/-- Use of a Python value as a number in arithmetic: numbers are
themselves, booleans coerce to 0 and 1, everything else raises
TypeError. -/
def asNum : Json → Except String ℝ
  | .num x => .ok x
  | .bool b => .ok (if b then 1 else 0)
  | _ => .error "TypeError"

open Classical in
/-- Python truthiness of a decoded JSON value. -/
noncomputable def truthy : Json → Bool
  | .null => false
  | .bool b => b
  | .num x => if x = 0 then false else true
  | .str s => if s = "" then false else true
  | .arr [] => false
  | .arr (_ :: _) => true
  | .obj [] => false
  | .obj (_ :: _) => true

/-- Euclidean arm length between a wrist and a shoulder, the expression
math.sqrt((wrist_x - shoulder_x)**2 + (wrist_y - shoulder_y)**2) that
recurs in the sources. -/
noncomputable def armLength (wx wy sx sy : ℝ) : ℝ :=
  Real.sqrt ((wx - sx) ^ 2 + (wy - sy) ^ 2)

end StrokeDetection

namespace LambdaRobustAsymmetry

open StrokeDetection

/-! Embedding of src/lambda_robust_asymmetry.py. -/

def NIHSS_0_NORMAL : ℝ := 0.20
def NIHSS_1_MILD : ℝ := 0.35
def NIHSS_2_MODERATE : ℝ := 0.50
def NIHSS_3_SEVERE : ℝ := 0.70
def NIHSS_4_PARALYSIS : ℝ := 0.70

/-- Result dict of calculate_nihss_motor_score (lines 15 to 29). -/
structure NihssResult where
  nihss_motor_score : ℕ
  severity : String
  clinical_interpretation : String

/-- calculate_nihss_motor_score from src/lambda_robust_asymmetry.py
(lines 15 to 29).  The unused test_duration parameter is omitted. -/
noncomputable def calculate_nihss_motor_score (y_difference : ℝ) : NihssResult :=
  let y := if y_difference > 1.0 then y_difference / 100.0 else y_difference
  if y < NIHSS_0_NORMAL then
    ⟨0, "normal", "No significant drift detected. Arms held steady within normal variation range."⟩
  else if y < NIHSS_1_MILD then
    ⟨1, "mild", "Mild arm variation detected. Arms show slight positioning differences but remain functional."⟩
  else if y < NIHSS_2_MODERATE then
    ⟨2, "moderate", "Moderate arm variation detected. Arms show noticeable positioning differences but maintain some control."⟩
  else if y < NIHSS_3_SEVERE then
    ⟨3, "severe", "Severe arm variation detected. Arms show significant positioning differences with limited control."⟩
  else
    ⟨4, "critical", "Critical arm variation detected. Arms show severe positioning differences or inability to maintain position."⟩

end LambdaRobustAsymmetry

namespace LambdaWithRekognition

open StrokeDetection

/-! Embedding of the keypoint scoring ladder of
src/lambda_with_rekognition.py. -/

def NIHSS_0_NORMAL : ℝ := 0.01
def NIHSS_1_MILD : ℝ := 0.03
def NIHSS_2_MODERATE : ℝ := 0.08
def NIHSS_3_SEVERE : ℝ := 0.15
def NIHSS_4_PARALYSIS : ℝ := 0.25

/-- Result dict of calculate_nihss_motor_score (lines 109 to 168).  The
unused test_duration entry is omitted. -/
structure NihssResult where
  nihss_motor_score : ℕ
  nihss_total : ℕ
  severity : String
  clinical_interpretation : String
  y_difference_percent : ℝ

/-- calculate_nihss_motor_score from src/lambda_with_rekognition.py
(lines 109 to 168).  The apostrophe in the NIHSS 1 message text of the
source is written out as plain ASCII here. -/
noncomputable def calculate_nihss_motor_score (y_difference : ℝ) : NihssResult :=
  let y := if y_difference > 1.0 then y_difference / 100.0 else y_difference
  if y < NIHSS_0_NORMAL then
    ⟨0, 0, "normal", "No drift detected. Arms held steady for full test duration.", y * 100⟩
  else if y < NIHSS_1_MILD then
    ⟨1, 1, "mild", "Mild arm drift detected. Arms drift before 10 seconds but do not fall completely.", y * 100⟩
  else if y < NIHSS_2_MODERATE then
    ⟨2, 2, "moderate", "Moderate arm drift detected. Arms fall before 10 seconds but show some effort against gravity.", y * 100⟩
  else if y < NIHSS_3_SEVERE then
    ⟨3, 3, "severe", "Severe arm drift detected. Arms fall immediately with no effort against gravity.", y * 100⟩
  else
    ⟨4, 4, "critical", "No arm movement detected. Complete paralysis or inability to raise arms.", y * 100⟩

end LambdaWithRekognition

namespace StrokeDetection

/-- AWS Lambda proxy response envelope with keys statusCode, headers and
body.  The source passes the body dict through json.dumps; the embedding
keeps the dict itself. -/
structure LambdaResponse where
  statusCode : ℕ
  headers : List (String × String)
  body : List (String × Json)

/-- Headers dict shared by every response the handlers build. -/
def stdHeaders : List (String × String) :=
  [("Content-Type", "application/json"), ("Access-Control-Allow-Origin", "*")]

/-- Body extraction of the Lambda handlers of lambda_robust_asymmetry.py
(lines 152 to 159): a body key whose value is a string goes through
json.loads (the parse argument), any other body value is used directly,
and an event without a body key is itself the body.  A non-dict event
raises when Python evaluates the membership test or a later attribute
access. -/
def extractBody (parse : String → Except String Json) (event : Json) :
    Except String Json :=
  match event with
  | .obj members =>
      match jlookup members "body" with
      | some (.str s) => parse s
      | some v => .ok v
      | none => .ok (.obj members)
  | _ => .error "TypeError"

end StrokeDetection

namespace LambdaRobustAsymmetry

open StrokeDetection

/-- Quality dict built by assess_keypoint_detection_quality (lines 31 to
78).  The numeric entries exist only in the full dict of line 71; the
missing-keypoints dict of line 43 lacks them, which the Option fields
model.  Numbers interpolated into the reason strings are elided. -/
structure QualityAssessment where
  quality : String
  reason : String
  arm_length_diff : Option ℝ
  avg_arm_length : Option ℝ
  left_arm_length : Option ℝ
  right_arm_length : Option ℝ

/-- One conjunct of the generator expression at line 42: kp.get("x") is
not None and kp.get("y") is not None, with Python short-circuit
evaluation of the and. -/
def keypointPresent (kp : Json) : Except String Bool := do
  let x ← dictGetSome kp "x"
  if x.isSome then
    let y ← dictGetSome kp "y"
    return y.isSome
  else
    return false

/-- The all(...) test at line 42 over the four keypoint dicts, with
Python short-circuit evaluation: later dicts are not touched once one
conjunct fails. -/
def allKeypointsPresent (lw rw ls rs : Json) : Except String Bool := do
  let b1 ← keypointPresent lw
  if b1 then
    let b2 ← keypointPresent rw
    if b2 then
      let b3 ← keypointPresent ls
      if b3 then
        keypointPresent rs
      else
        return false
    else
      return false
  else
    return false

open Classical in
/-- assess_keypoint_detection_quality from src/lambda_robust_asymmetry.py
(lines 31 to 78). -/
noncomputable def assess_keypoint_detection_quality (keypoints : Json) :
    Except String QualityAssessment := do
  let left_wrist ← dictGetD keypoints "left_wrist" (.obj [])
  let right_wrist ← dictGetD keypoints "right_wrist" (.obj [])
  let left_shoulder ← dictGetD keypoints "left_shoulder" (.obj [])
  let right_shoulder ← dictGetD keypoints "right_shoulder" (.obj [])
  let allPresent ← allKeypointsPresent left_wrist right_wrist left_shoulder right_shoulder
  if allPresent then
    let lwx ← subscript left_wrist "x" >>= asNum
    let lsx ← subscript left_shoulder "x" >>= asNum
    let lwy ← subscript left_wrist "y" >>= asNum
    let lsy ← subscript left_shoulder "y" >>= asNum
    let rwx ← subscript right_wrist "x" >>= asNum
    let rsx ← subscript right_shoulder "x" >>= asNum
    let rwy ← subscript right_wrist "y" >>= asNum
    let rsy ← subscript right_shoulder "y" >>= asNum
    let left_arm_length := armLength lwx lwy lsx lsy
    let right_arm_length := armLength rwx rwy rsx rsy
    let avg_arm_length := (left_arm_length + right_arm_length) / 2
    let arm_length_diff :=
      if max left_arm_length right_arm_length > 0 then
        |left_arm_length - right_arm_length| / max left_arm_length right_arm_length
      else
        1.0
    let small_arm_lengths := avg_arm_length < 0.05
    let very_small_arm_lengths := avg_arm_length < 0.02
    if very_small_arm_lengths ∨ arm_length_diff > 0.8 then
      return ⟨"very_poor", "Very small arm lengths or large difference",
        some arm_length_diff, some avg_arm_length, some left_arm_length, some right_arm_length⟩
    else if small_arm_lengths ∨ arm_length_diff > 0.5 then
      return ⟨"poor", "Small arm lengths or significant difference",
        some arm_length_diff, some avg_arm_length, some left_arm_length, some right_arm_length⟩
    else if arm_length_diff > 0.3 then
      return ⟨"fair", "Moderate arm length difference",
        some arm_length_diff, some avg_arm_length, some left_arm_length, some right_arm_length⟩
    else
      return ⟨"good", "Good arm length consistency",
        some arm_length_diff, some avg_arm_length, some left_arm_length, some right_arm_length⟩
  else
    return ⟨"poor", "Missing required keypoints", none, none, none, none⟩

/-- Analysis dict built by calculate_robust_asymmetry (lines 80 to 144).
The early fallback dict of line 87 carries only the first five entries
and the error entry; the Option fields model the entries it lacks. -/
structure RobustResult where
  asymmetry_score : ℝ
  asymmetry_percent : ℝ
  drift_detected : Bool
  method_used : String
  quality_assessment : QualityAssessment
  vertical_drift : Option ℝ
  nihss_motor_score : Option ℕ
  nihss_total : Option ℕ
  severity : Option String
  clinical_interpretation : Option String
  error : Option String

/-- The early-return dict of calculate_robust_asymmetry for very poor
detection quality (lines 86 to 94). -/
def fallbackResult (qa : QualityAssessment) : RobustResult :=
  { asymmetry_score := 0.0, asymmetry_percent := 0.0, drift_detected := false,
    method_used := "fallback", quality_assessment := qa,
    vertical_drift := none, nihss_motor_score := none, nihss_total := none,
    severity := none, clinical_interpretation := none,
    error := some "Very poor keypoint detection quality - cannot assess asymmetry" }

open Classical in
/-- The final dict of calculate_robust_asymmetry (lines 126 to 144):
the NIHSS grading of the score, the 5-percent drift flag, and the
nihss_total entry copied from the motor score at line 140. -/
noncomputable def analysisResult (qa : QualityAssessment)
    (vertical_drift asymmetry_score : ℝ) (method_used : String) : RobustResult :=
  { asymmetry_score := asymmetry_score,
    asymmetry_percent := asymmetry_score * 100,
    drift_detected := if asymmetry_score > 0.05 then true else false,
    method_used := method_used,
    quality_assessment := qa,
    vertical_drift := some vertical_drift,
    nihss_motor_score := some (calculate_nihss_motor_score asymmetry_score).nihss_motor_score,
    nihss_total := some (calculate_nihss_motor_score asymmetry_score).nihss_motor_score,
    severity := some (calculate_nihss_motor_score asymmetry_score).severity,
    clinical_interpretation := some (calculate_nihss_motor_score asymmetry_score).clinical_interpretation,
    error := none }

open Classical in
/-- calculate_robust_asymmetry from src/lambda_robust_asymmetry.py
(lines 80 to 144). -/
noncomputable def calculate_robust_asymmetry (keypoints : Json) :
    Except String RobustResult := do
  let qa ← assess_keypoint_detection_quality keypoints
  if qa.quality = "very_poor" then
    return fallbackResult qa
  else
    let left_wrist ← subscript keypoints "left_wrist"
    let right_wrist ← subscript keypoints "right_wrist"
    let left_shoulder ← subscript keypoints "left_shoulder"
    let right_shoulder ← subscript keypoints "right_shoulder"
    let lwy ← subscript left_wrist "y" >>= asNum
    let rwy ← subscript right_wrist "y" >>= asNum
    let vertical_drift := |lwy - rwy|
    let scoreAndMethod ←
      if qa.quality = "poor" ∨ qa.quality = "very_poor" then
        pure (vertical_drift, "absolute_vertical_drift")
      else do
        let lwx ← subscript left_wrist "x" >>= asNum
        let lsx ← subscript left_shoulder "x" >>= asNum
        let lsy ← subscript left_shoulder "y" >>= asNum
        let rwx ← subscript right_wrist "x" >>= asNum
        let rsx ← subscript right_shoulder "x" >>= asNum
        let rsy ← subscript right_shoulder "y" >>= asNum
        let left_arm_length := armLength lwx lwy lsx lsy
        let right_arm_length := armLength rwx rwy rsx rsy
        let avg_arm_length := (left_arm_length + right_arm_length) / 2
        if avg_arm_length > 0.01 then
          pure (vertical_drift / avg_arm_length, "normalized_vertical_drift")
        else
          pure (vertical_drift, "normalized_vertical_drift")
    return analysisResult qa vertical_drift scoreAndMethod.1 scoreAndMethod.2

/-- The 400 response built at lines 178 to 190 of the handler. -/
def errorResponse400 (msg : String) : LambdaResponse :=
  ⟨400, stdHeaders,
    [("error", .str msg), ("drift_detected", .bool false),
     ("asymmetry_score", .num 0.0), ("nihss_motor_score", .num 0)]⟩

/-- The 500 response built at lines 231 to 243 of the handler. -/
def errorResponse500 (msg : String) : LambdaResponse :=
  ⟨500, stdHeaders,
    [("error", .str msg), ("drift_detected", .bool false),
     ("asymmetry_score", .num 0.0), ("nihss_motor_score", .num 0)]⟩

/-- The 200 response built at lines 202 to 227 of the handler.  On this
path the Option entries of the analysis dict are always populated, so
the getD defaults are never exercised. -/
def successResponse (ar : RobustResult) : LambdaResponse :=
  ⟨200, stdHeaders,
    [("drift_detected", .bool ar.drift_detected),
     ("asymmetry_score", .num ar.asymmetry_score),
     ("asymmetry_percent", .num ar.asymmetry_percent),
     ("y_difference", .num ar.asymmetry_score),
     ("clinical_score", .num (ar.nihss_motor_score.getD 0 : ℕ)),
     ("nihss_motor_score", .num (ar.nihss_motor_score.getD 0 : ℕ)),
     ("nihss_total", .num (ar.nihss_total.getD 0 : ℕ)),
     ("severity", .str (ar.severity.getD "")),
     ("message", .str (ar.clinical_interpretation.getD "")),
     ("clinical_interpretation", .str (ar.clinical_interpretation.getD "")),
     ("test_quality", .str "robust_keypoint_analysis"),
     ("research_based", .bool true),
     ("clinical_standards", .str "NIHSS_Motor_Arm_Item5_Robust"),
     ("analysis_method", .str ar.method_used),
     ("detection_quality", .str ar.quality_assessment.quality),
     ("quality_reason", .str ar.quality_assessment.reason),
     ("vertical_drift", .num (ar.vertical_drift.getD 0))]⟩

open Classical in
/-- Body of the try block of lambda_handler (lines 147 to 227).  The
force-drift override at lines 193 to 199 rewrites exactly the five
entries the source assigns; nihss_total keeps the computed value. -/
noncomputable def processEvent (parse : String → Except String Json) (event : Json) :
    Except String LambdaResponse := do
  let body ← extractBody parse event
  let keypoints ← dictGetD body "keypoints" (.obj [])
  let _user_id ← dictGetD body "user_id" (.str "unknown")
  let _test_mode ← dictGetD body "test_mode" (.bool false)
  let force_drift ← dictGetD body "force_drift" (.bool false)
  let _user_intentionally_drifting ← dictGetD body "user_intentionally_drifting" (.bool false)
  let analysis_result ← calculate_robust_asymmetry keypoints
  match analysis_result.error with
  | some msg => return errorResponse400 msg
  | none =>
      if truthy force_drift then
        return successResponse { analysis_result with
          drift_detected := true,
          asymmetry_score := 0.08,
          nihss_motor_score := some 3,
          severity := some "severe",
          clinical_interpretation := some "FORCED DRIFT for testing purposes" }
      else
        return successResponse analysis_result

/-- lambda_handler from src/lambda_robust_asymmetry.py (lines 146 to
243): the broad except at line 229 catches every exception of the try
block and answers with the 500 response. -/
noncomputable def lambda_handler (parse : String → Except String Json) (event : Json) :
    LambdaResponse :=
  match processEvent parse event with
  | .ok response => response
  | .error e => errorResponse500 e

end LambdaRobustAsymmetry

namespace LambdaNihssCompliant

open StrokeDetection

/-! Embedding of the analysis part of src/lambda_nihss_compliant.py. -/

def NIHSS_0_NORMAL : ℝ := 0.05
def NIHSS_1_MILD : ℝ := 0.15
def NIHSS_2_MODERATE : ℝ := 0.30
def NIHSS_3_SEVERE : ℝ := 0.50
def NIHSS_4_PARALYSIS : ℝ := 0.80

open Classical in
/-- calculate_arm_angle from src/lambda_nihss_compliant.py (lines 23 to
34).  Note the zero-length guard returns 0, not 90. -/
noncomputable def calculate_arm_angle (wrist_y shoulder_y : ℝ) : ℝ :=
  let arm_length := |wrist_y - shoulder_y|
  if arm_length = 0 then 0 else 90 - arm_length * 90

/-- Result dict of analyze_nihss_compliant_asymmetry (lines 36 to 162).
The error dicts carry only part of the entries, which the Option fields
model; the wall-clock analysis_time entry is elided. -/
structure NCResult where
  nihss_score : ℕ
  asymmetry_score : ℝ
  asymmetry_percentage : Option ℝ
  severity : Option String
  clinical_meaning : Option String
  left_arm_angle : Option ℝ
  right_arm_angle : Option ℝ
  vertical_drift_pixels : Option ℝ
  avg_arm_length : Option ℝ
  nihss_compliant : Bool
  error : Option String

/-- The keypoint reads at lines 51 to 54:
keypoints[name]["y"] for the four keypoints, in source order.  A missing
key raises KeyError and a non-dict or non-numeric value raises TypeError;
both are caught by the except clause at line 154. -/
def extract_wrist_shoulder_ys (keypoints : Json) : Except String (ℝ × ℝ × ℝ × ℝ) := do
  let left_wrist ← subscript keypoints "left_wrist"
  let left_wrist_y ← subscript left_wrist "y" >>= asNum
  let right_wrist ← subscript keypoints "right_wrist"
  let right_wrist_y ← subscript right_wrist "y" >>= asNum
  let left_shoulder ← subscript keypoints "left_shoulder"
  let left_shoulder_y ← subscript left_shoulder "y" >>= asNum
  let right_shoulder ← subscript keypoints "right_shoulder"
  let right_shoulder_y ← subscript right_shoulder "y" >>= asNum
  return (left_wrist_y, right_wrist_y, left_shoulder_y, right_shoulder_y)

open Classical in
/-- analyze_nihss_compliant_asymmetry from src/lambda_nihss_compliant.py
(lines 36 to 162).  The degree sign of the positioning error text is
written out in ASCII. -/
noncomputable def analyze_nihss_compliant_asymmetry (keypoints : Json) : NCResult :=
  match extract_wrist_shoulder_ys keypoints with
  | .error e =>
      { nihss_score := 0, asymmetry_score := 0.0, asymmetry_percentage := none,
        severity := none, clinical_meaning := none, left_arm_angle := none,
        right_arm_angle := none, vertical_drift_pixels := none, avg_arm_length := none,
        nihss_compliant := false, error := some ("Missing keypoints: " ++ e) }
  | .ok (left_wrist_y, right_wrist_y, left_shoulder_y, right_shoulder_y) =>
      let left_arm_angle := calculate_arm_angle left_wrist_y left_shoulder_y
      let right_arm_angle := calculate_arm_angle right_wrist_y right_shoulder_y
      let proper_positioning :=
        (80 ≤ left_arm_angle ∧ left_arm_angle ≤ 100) ∧
        (80 ≤ right_arm_angle ∧ right_arm_angle ≤ 100)
      if proper_positioning then
        let vertical_drift_pixels := |left_wrist_y - right_wrist_y|
        let left_arm_length := |left_wrist_y - left_shoulder_y|
        let right_arm_length := |right_wrist_y - right_shoulder_y|
        let avg_arm_length := (left_arm_length + right_arm_length) / 2
        if avg_arm_length < 0.01 then
          { nihss_score := 0, asymmetry_score := 0.0, asymmetry_percentage := none,
            severity := none, clinical_meaning := none, left_arm_angle := none,
            right_arm_angle := none, vertical_drift_pixels := none, avg_arm_length := none,
            nihss_compliant := false, error := some "Arm length too small" }
        else
          let asymmetry_score := vertical_drift_pixels / avg_arm_length
          let graded : ℕ × String × String :=
            if asymmetry_score < NIHSS_0_NORMAL then
              (0, "normal", "No drift - Normal motor function")
            else if asymmetry_score < NIHSS_1_MILD then
              (1, "mild", "Mild drift - Slight weakness, monitor")
            else if asymmetry_score < NIHSS_2_MODERATE then
              (2, "moderate", "Moderate drift - Noticeable weakness, medical evaluation recommended")
            else if asymmetry_score < NIHSS_3_SEVERE then
              (3, "severe", "Severe drift - Significant weakness, urgent medical evaluation")
            else
              (4, "critical", "No movement - Severe paralysis, emergency medical care needed")
          { nihss_score := graded.1, asymmetry_score := asymmetry_score,
            asymmetry_percentage := some (asymmetry_score * 100),
            severity := some graded.2.1, clinical_meaning := some graded.2.2,
            left_arm_angle := some left_arm_angle, right_arm_angle := some right_arm_angle,
            vertical_drift_pixels := some vertical_drift_pixels,
            avg_arm_length := some avg_arm_length,
            nihss_compliant := true, error := none }
      else
        { nihss_score := 0, asymmetry_score := 0.0, asymmetry_percentage := none,
          severity := none, clinical_meaning := none,
          left_arm_angle := some left_arm_angle, right_arm_angle := some right_arm_angle,
          vertical_drift_pixels := none, avg_arm_length := none,
          nihss_compliant := false,
          error := some "Arms not positioned at 90 degrees (NIHSS requirement)" }

end LambdaNihssCompliant

namespace TestScripts

/-- One blocking HTTP call issued through requests.post: its URL and its
constant timeout argument in seconds. -/
structure HttpCall where
  url : String
  timeout : ℕ

end TestScripts

namespace TestThresholds

open TestScripts

/-- LAMBDA_URL from src/test_thresholds.py line 11. -/
def LAMBDA_URL : String := "https://irwrhsf9a0.execute-api.us-east-1.amazonaws.com/drifttest"

/-- The blocking HTTP calls one invocation of test_threshold_value
(src/test_thresholds.py lines 16 to 61) performs: the single
requests.post at lines 34 to 39 with timeout=10. -/
def test_threshold_value_calls : List HttpCall := [⟨LAMBDA_URL, 10⟩]

end TestThresholds

namespace TestAwsIntegration

open TestScripts

/-- API_GATEWAY_URL from src/test_aws_integration.py line 35. -/
def API_GATEWAY_URL : String := "https://irwrhsf9a0.execute-api.us-east-1.amazonaws.com/drifttest"

/-- The blocking HTTP calls one invocation of test_aws_integration
(src/test_aws_integration.py lines 11 to 104) performs: the single
requests.post at lines 43 to 48 with timeout=30. -/
def test_aws_integration_calls : List HttpCall := [⟨API_GATEWAY_URL, 30⟩]

end TestAwsIntegration

namespace TestFixedLambda

open StrokeDetection TestScripts

/-- API_GATEWAY_URL from src/test_fixed_lambda.py line 10. -/
def API_GATEWAY_URL : String := "https://irwrhsf9a0.execute-api.us-east-1.amazonaws.com/drifttest"

/-- One entry of the test_scenarios list of test_fixed_lambda. -/
structure Scenario where
  name : String
  keypoints : Json
  expected_severity : String

/-- The test_scenarios list from src/test_fixed_lambda.py lines 20 to
51. -/
def test_scenarios : List Scenario :=
  [⟨"No Drift",
    .obj [("left_wrist", .obj [("x", .num 0.3), ("y", .num 0.7)]),
          ("right_wrist", .obj [("x", .num 0.7), ("y", .num 0.7)]),
          ("left_shoulder", .obj [("x", .num 0.35), ("y", .num 0.3)]),
          ("right_shoulder", .obj [("x", .num 0.65), ("y", .num 0.3)])],
    "normal"⟩,
   ⟨"Small Drift (5%)",
    .obj [("left_wrist", .obj [("x", .num 0.3), ("y", .num 0.7)]),
          ("right_wrist", .obj [("x", .num 0.7), ("y", .num 0.72)]),
          ("left_shoulder", .obj [("x", .num 0.35), ("y", .num 0.3)]),
          ("right_shoulder", .obj [("x", .num 0.65), ("y", .num 0.3)])],
    "mild"⟩,
   ⟨"Medium Drift (15%)",
    .obj [("left_wrist", .obj [("x", .num 0.3), ("y", .num 0.7)]),
          ("right_wrist", .obj [("x", .num 0.7), ("y", .num 0.76)]),
          ("left_shoulder", .obj [("x", .num 0.35), ("y", .num 0.3)]),
          ("right_shoulder", .obj [("x", .num 0.65), ("y", .num 0.3)])],
    "moderate"⟩]

/-- The blocking HTTP calls the loop body of test_fixed_lambda
(src/test_fixed_lambda.py lines 53 to 100) performs for one scenario:
the single requests.post at lines 65 to 70 with timeout=15. -/
def scenario_calls (_s : Scenario) : List HttpCall := [⟨API_GATEWAY_URL, 15⟩]

/-- All blocking HTTP calls one invocation of test_fixed_lambda
performs: the for-loop at line 53 issues the post once per scenario. -/
def test_fixed_lambda_calls : List HttpCall :=
  (test_scenarios.map scenario_calls).flatten

end TestFixedLambda

namespace Witnesses

open StrokeDetection

/-- A parse function modelling json.loads failing on a malformed body
string. -/
def failParse : String → Except String Json := fun _ => .error "JSONDecodeError"

/-- Keypoints with equal x-coordinates, both arms 0.5 long and no
vertical wrist drift. -/
def keypointsSteady : Json :=
  .obj [("left_wrist", .obj [("x", .num 0.5), ("y", .num 0.9)]),
        ("right_wrist", .obj [("x", .num 0.5), ("y", .num 0.9)]),
        ("left_shoulder", .obj [("x", .num 0.5), ("y", .num 0.4)]),
        ("right_shoulder", .obj [("x", .num 0.5), ("y", .num 0.4)])]

/-- Keypoints with equal x-coordinates whose normalised asymmetry is
0.12, strictly between the drift threshold 0.05 and the normal cutoff
0.20. -/
def keypointsMidDrift : Json :=
  .obj [("left_wrist", .obj [("x", .num 0.5), ("y", .num 0.93)]),
        ("right_wrist", .obj [("x", .num 0.5), ("y", .num 0.87)]),
        ("left_shoulder", .obj [("x", .num 0.5), ("y", .num 0.4)]),
        ("right_shoulder", .obj [("x", .num 0.5), ("y", .num 0.4)])]

/-- Event carrying keypointsSteady and a truthy force_drift flag. -/
def eventForcedDrift : Json :=
  .obj [("body", .obj [("keypoints", keypointsSteady), ("force_drift", .bool true)])]

/-- Event carrying keypointsSteady and no force_drift flag. -/
def eventSteady : Json :=
  .obj [("body", .obj [("keypoints", keypointsSteady)])]

/-- Event whose body is a string that does not parse as JSON. -/
def eventBadBody : Json := .obj [("body", .str "not json")]

/-- Event with an empty keypoints dict and a truthy force_drift flag. -/
def eventEmptyKeypoints : Json :=
  .obj [("body", .obj [("keypoints", .obj []), ("force_drift", .bool true)])]

/-- Keypoints for the NIHSS-compliant analysis: wrists 0.1 below the
shoulders, so both arm angles are 81 degrees and positioning passes. -/
def keypointsCompliant : Json :=
  .obj [("left_wrist", .obj [("x", .num 0.5), ("y", .num 0.5)]),
        ("right_wrist", .obj [("x", .num 0.5), ("y", .num 0.52)]),
        ("left_shoulder", .obj [("x", .num 0.5), ("y", .num 0.4)]),
        ("right_shoulder", .obj [("x", .num 0.5), ("y", .num 0.42)])]

/-- Keypoints whose arms are 0.7 and 0.6 long, so both arm angles are
far below 80 degrees and the NIHSS positioning check fails. -/
def keypointsLongArms : Json :=
  .obj [("left_wrist", .obj [("x", .num 0.5), ("y", .num 0.9)]),
        ("right_wrist", .obj [("x", .num 0.5), ("y", .num 0.8)]),
        ("left_shoulder", .obj [("x", .num 0.5), ("y", .num 0.2)]),
        ("right_shoulder", .obj [("x", .num 0.5), ("y", .num 0.2)])]

end Witnesses

namespace StrokeDetection

lemma ok_bind {α β : Type} (a : α) (f : α → Except String β) :
    (Except.ok a >>= f) = f a := rfl

lemma error_bind {α β : Type} (e : String) (f : α → Except String β) :
    ((Except.error e : Except String α) >>= f) = Except.error e := rfl

lemma pure_eq_ok {α : Type} (a : α) : (pure a : Except String α) = Except.ok a := rfl

lemma bind_eq_ok {α β : Type} {x : Except String α} {f : α → Except String β} {b : β} :
    (x >>= f) = Except.ok b ↔ ∃ a, x = Except.ok a ∧ f a = Except.ok b := by
  cases x <;> simp [ok_bind, error_bind]

lemma armLength_vertical (x wy sy : ℝ) : armLength x wy x sy = |wy - sy| := by
  simp [armLength]
  rw [Real.sqrt_sq_eq_abs]

end StrokeDetection

namespace LambdaRobustAsymmetry

open StrokeDetection

/-- Shape of a non-raising run of calculate_robust_asymmetry: either the
very-poor fallback dict or a full analysis dict. -/
lemma calculate_robust_asymmetry_ok_cases (keypoints : Json) (ar : RobustResult)
    (h : calculate_robust_asymmetry keypoints = .ok ar) :
    (∃ qa, assess_keypoint_detection_quality keypoints = .ok qa ∧
        qa.quality = "very_poor" ∧ ar = fallbackResult qa) ∨
    (∃ qa vd s m, assess_keypoint_detection_quality keypoints = .ok qa ∧
        qa.quality ≠ "very_poor" ∧ ar = analysisResult qa vd s m) := by
  unfold calculate_robust_asymmetry at h
  rw [bind_eq_ok] at h
  obtain ⟨qa, hqa, h⟩ := h
  by_cases hq : qa.quality = "very_poor"
  · left
    refine ⟨qa, hqa, hq, ?_⟩
    simp only [hq, if_true, if_pos, pure_eq_ok, Except.ok.injEq] at h
    · exact h.symm
  · right
    simp only [hq, if_false, ite_false] at h
    rw [bind_eq_ok] at h; obtain ⟨kLW, _, h⟩ := h
    rw [bind_eq_ok] at h; obtain ⟨kRW, _, h⟩ := h
    rw [bind_eq_ok] at h; obtain ⟨kLS, _, h⟩ := h
    rw [bind_eq_ok] at h; obtain ⟨kRS, _, h⟩ := h
    rw [bind_eq_ok] at h; obtain ⟨vLWY, _, h⟩ := h
    rw [bind_eq_ok] at h; obtain ⟨vRWY, _, h⟩ := h
    split_ifs at h with hpoor
    · simp only [pure_eq_ok, ok_bind, Except.ok.injEq] at h
      exact ⟨qa, _, _, _, hqa, hq, h.symm⟩
    · rw [bind_eq_ok] at h; obtain ⟨lwx, _, h⟩ := h
      rw [bind_eq_ok] at h; obtain ⟨lsx, _, h⟩ := h
      rw [bind_eq_ok] at h; obtain ⟨lsy, _, h⟩ := h
      rw [bind_eq_ok] at h; obtain ⟨rwx, _, h⟩ := h
      rw [bind_eq_ok] at h; obtain ⟨rsx, _, h⟩ := h
      rw [bind_eq_ok] at h; obtain ⟨rsy, _, h⟩ := h
      split_ifs at h <;>
      · simp only [pure_eq_ok, ok_bind, Except.ok.injEq] at h
        exact ⟨qa, _, _, _, hqa, hq, h.symm⟩

/-- Shape of a non-raising run of the handler body: every 200 response
comes from successResponse and every 400 response from
errorResponse400. -/
lemma processEvent_ok_cases (parse : String → Except String Json) (event : Json)
    (r : LambdaResponse) (h : processEvent parse event = .ok r) :
    (∃ msg, r = errorResponse400 msg) ∨ (∃ ar : RobustResult, r = successResponse ar) := by
  unfold processEvent at h
  rw [bind_eq_ok] at h; obtain ⟨body, _, h⟩ := h
  rw [bind_eq_ok] at h; obtain ⟨kps, _, h⟩ := h
  rw [bind_eq_ok] at h; obtain ⟨u1, _, h⟩ := h
  rw [bind_eq_ok] at h; obtain ⟨u2, _, h⟩ := h
  rw [bind_eq_ok] at h; obtain ⟨fd, _, h⟩ := h
  rw [bind_eq_ok] at h; obtain ⟨u3, _, h⟩ := h
  rw [bind_eq_ok] at h; obtain ⟨ar, _, h⟩ := h
  cases har : ar.error with
  | some msg =>
      left
      rw [har] at h
      simp only [pure_eq_ok, Except.ok.injEq] at h
      exact ⟨msg, h.symm⟩
  | none =>
      right
      rw [har] at h
      split_ifs at h <;>
        simp only [pure_eq_ok, Except.ok.injEq] at h <;>
        exact ⟨_, h.symm⟩

end LambdaRobustAsymmetry

/-- C2: for every asymmetry value y in the unit interval, the scoring
ladder of lambda_robust_asymmetry.py lands in exactly one of the five
buckets cut at 0.20, 0.35, 0.50 and 0.70: the result is (0, normal) iff
y < 0.20, (1, mild) iff 0.20 <= y < 0.35, (2, moderate) iff
0.35 <= y < 0.50, (3, severe) iff 0.50 <= y < 0.70 and (4, critical) iff
0.70 <= y; the five characterisations make the buckets exhaustive and
mutually exclusive. -/
theorem claim_C2_nihss_ladder_five_buckets (y : ℝ) (h0 : 0 ≤ y) (h1 : y ≤ 1) :
    (((LambdaRobustAsymmetry.calculate_nihss_motor_score y).nihss_motor_score = 0 ∧
      (LambdaRobustAsymmetry.calculate_nihss_motor_score y).severity = "normal") ↔ y < 0.20) ∧
    (((LambdaRobustAsymmetry.calculate_nihss_motor_score y).nihss_motor_score = 1 ∧
      (LambdaRobustAsymmetry.calculate_nihss_motor_score y).severity = "mild") ↔ 0.20 ≤ y ∧ y < 0.35) ∧
    (((LambdaRobustAsymmetry.calculate_nihss_motor_score y).nihss_motor_score = 2 ∧
      (LambdaRobustAsymmetry.calculate_nihss_motor_score y).severity = "moderate") ↔ 0.35 ≤ y ∧ y < 0.50) ∧
    (((LambdaRobustAsymmetry.calculate_nihss_motor_score y).nihss_motor_score = 3 ∧
      (LambdaRobustAsymmetry.calculate_nihss_motor_score y).severity = "severe") ↔ 0.50 ≤ y ∧ y < 0.70) ∧
    (((LambdaRobustAsymmetry.calculate_nihss_motor_score y).nihss_motor_score = 4 ∧
      (LambdaRobustAsymmetry.calculate_nihss_motor_score y).severity = "critical") ↔ 0.70 ≤ y) := by
  have hns : ¬ (y > 1.0) := by push_neg; linarith
  rcases lt_or_le y 0.20 with h | hb0
  · have k1 : ¬ (0.20 ≤ y) := not_le.mpr h
    have k2 : ¬ (0.35 ≤ y) := by intro hk; linarith
    have k3 : ¬ (0.50 ≤ y) := by intro hk; linarith
    have k4 : ¬ (0.70 ≤ y) := by intro hk; linarith
    simp [LambdaRobustAsymmetry.calculate_nihss_motor_score,
      LambdaRobustAsymmetry.NIHSS_0_NORMAL, hns, h, k1, k2, k3, k4]
  rcases lt_or_le y 0.35 with h | hb1
  · have k0 : ¬ (y < 0.20) := not_lt.mpr hb0
    have k2 : ¬ (0.35 ≤ y) := not_le.mpr h
    have k3 : ¬ (0.50 ≤ y) := by intro hk; linarith
    have k4 : ¬ (0.70 ≤ y) := by intro hk; linarith
    simp [LambdaRobustAsymmetry.calculate_nihss_motor_score,
      LambdaRobustAsymmetry.NIHSS_0_NORMAL, LambdaRobustAsymmetry.NIHSS_1_MILD,
      hns, h, hb0, k0, k2, k3, k4]
  rcases lt_or_le y 0.50 with h | hb2
  · have k0 : ¬ (y < 0.20) := by intro hk; linarith
    have k1 : ¬ (y < 0.35) := not_lt.mpr hb1
    have k3 : ¬ (0.50 ≤ y) := not_le.mpr h
    have k4 : ¬ (0.70 ≤ y) := by intro hk; linarith
    simp [LambdaRobustAsymmetry.calculate_nihss_motor_score,
      LambdaRobustAsymmetry.NIHSS_0_NORMAL, LambdaRobustAsymmetry.NIHSS_1_MILD,
      LambdaRobustAsymmetry.NIHSS_2_MODERATE, hns, h, hb0, hb1, k0, k1, k3, k4]
  rcases lt_or_le y 0.70 with h | hb3
  · have k0 : ¬ (y < 0.20) := by intro hk; linarith
    have k1 : ¬ (y < 0.35) := by intro hk; linarith
    have k2 : ¬ (y < 0.50) := not_lt.mpr hb2
    have k4 : ¬ (0.70 ≤ y) := not_le.mpr h
    simp [LambdaRobustAsymmetry.calculate_nihss_motor_score,
      LambdaRobustAsymmetry.NIHSS_0_NORMAL, LambdaRobustAsymmetry.NIHSS_1_MILD,
      LambdaRobustAsymmetry.NIHSS_2_MODERATE, LambdaRobustAsymmetry.NIHSS_3_SEVERE,
      hns, h, hb0, hb1, hb2, k0, k1, k2, k4]
  · have k0 : ¬ (y < 0.20) := by intro hk; linarith
    have k1 : ¬ (y < 0.35) := by intro hk; linarith
    have k2 : ¬ (y < 0.50) := by intro hk; linarith
    have k3 : ¬ (y < 0.70) := not_lt.mpr hb3
    simp [LambdaRobustAsymmetry.calculate_nihss_motor_score,
      LambdaRobustAsymmetry.NIHSS_0_NORMAL, LambdaRobustAsymmetry.NIHSS_1_MILD,
      LambdaRobustAsymmetry.NIHSS_2_MODERATE, LambdaRobustAsymmetry.NIHSS_3_SEVERE,
      hns, hb0, hb1, hb2, hb3, k0, k1, k2, k3]

/-- Witness for C2 at the concrete value 0.25, which the ladder puts in
the mild bucket. -/
theorem claim_C2_witness :
    ((LambdaRobustAsymmetry.calculate_nihss_motor_score 0.25).nihss_motor_score = 1 ∧
      (LambdaRobustAsymmetry.calculate_nihss_motor_score 0.25).severity = "mild") :=
  (claim_C2_nihss_ladder_five_buckets 0.25 (by norm_num) (by norm_num)).2.1.2
    ⟨by norm_num, by norm_num⟩

/-- C3: the scoring ladders of lambda_with_rekognition.py (cutoffs 0.01,
0.03, 0.08, 0.15, 0.25) and lambda_robust_asymmetry.py (cutoffs 0.20,
0.35, 0.50, 0.70) are not extensionally equal: every asymmetry value in
the interval from 0.01 inclusive to 0.20 exclusive receives a different
NIHSS motor score and a different severity label from the two ladders. -/
theorem claim_C3_ladders_disagree (y : ℝ) (hlo : 0.01 ≤ y) (hhi : y < 0.20) :
    (LambdaWithRekognition.calculate_nihss_motor_score y).nihss_motor_score ≠
      (LambdaRobustAsymmetry.calculate_nihss_motor_score y).nihss_motor_score ∧
    (LambdaWithRekognition.calculate_nihss_motor_score y).severity ≠
      (LambdaRobustAsymmetry.calculate_nihss_motor_score y).severity := by
  have hns : ¬ (y > 1.0) := by push_neg; linarith
  have hrob : (LambdaRobustAsymmetry.calculate_nihss_motor_score y).nihss_motor_score = 0 ∧
      (LambdaRobustAsymmetry.calculate_nihss_motor_score y).severity = "normal" := by
    simp [LambdaRobustAsymmetry.calculate_nihss_motor_score,
      LambdaRobustAsymmetry.NIHSS_0_NORMAL, hns, hhi]
  have hr0 : ¬ (y < 0.01) := not_lt.mpr hlo
  rw [hrob.1, hrob.2]
  rcases lt_or_le y 0.03 with h | hb1
  · simp [LambdaWithRekognition.calculate_nihss_motor_score,
      LambdaWithRekognition.NIHSS_0_NORMAL, LambdaWithRekognition.NIHSS_1_MILD, hns, hr0, h]
  rcases lt_or_le y 0.08 with h | hb2
  · have k1 : ¬ (y < 0.03) := not_lt.mpr hb1
    simp [LambdaWithRekognition.calculate_nihss_motor_score,
      LambdaWithRekognition.NIHSS_0_NORMAL, LambdaWithRekognition.NIHSS_1_MILD,
      LambdaWithRekognition.NIHSS_2_MODERATE, hns, hr0, k1, h]
  rcases lt_or_le y 0.15 with h | hb3
  · have k1 : ¬ (y < 0.03) := by intro hk; linarith
    have k2 : ¬ (y < 0.08) := not_lt.mpr hb2
    simp [LambdaWithRekognition.calculate_nihss_motor_score,
      LambdaWithRekognition.NIHSS_0_NORMAL, LambdaWithRekognition.NIHSS_1_MILD,
      LambdaWithRekognition.NIHSS_2_MODERATE, LambdaWithRekognition.NIHSS_3_SEVERE,
      hns, hr0, k1, k2, h]
  · have k1 : ¬ (y < 0.03) := by intro hk; linarith
    have k2 : ¬ (y < 0.08) := by intro hk; linarith
    have k3 : ¬ (y < 0.15) := not_lt.mpr hb3
    have k4 : y < 0.25 := by linarith
    simp [LambdaWithRekognition.calculate_nihss_motor_score,
      LambdaWithRekognition.NIHSS_0_NORMAL, LambdaWithRekognition.NIHSS_1_MILD,
      LambdaWithRekognition.NIHSS_2_MODERATE, LambdaWithRekognition.NIHSS_3_SEVERE,
      LambdaWithRekognition.NIHSS_4_PARALYSIS, hns, hr0, k1, k2, k3, k4]

/-- Witness for C3 at the concrete value 0.1: the rekognition ladder and
the robust ladder assign it different motor scores. -/
theorem claim_C3_witness :
    (0.01 : ℝ) ≤ 0.1 ∧ (0.1 : ℝ) < 0.20 ∧
    (LambdaWithRekognition.calculate_nihss_motor_score 0.1).nihss_motor_score ≠
      (LambdaRobustAsymmetry.calculate_nihss_motor_score 0.1).nihss_motor_score :=
  ⟨by norm_num, by norm_num, (claim_C3_ladders_disagree 0.1 (by norm_num) (by norm_num)).1⟩

/-- C7: the robust scoring ladder is not monotone.  Every input strictly
between 1.0 and 20.0 is first divided by 100 and classified (0, normal),
every input between 0.70 and 1.0 is classified (4, critical), and hence
there are inputs a < b with score 4 at a and score 0 at b. -/
theorem claim_C7_ladder_not_monotone :
    (∀ y : ℝ, 1.0 < y → y < 20.0 →
      (LambdaRobustAsymmetry.calculate_nihss_motor_score y).nihss_motor_score = 0 ∧
      (LambdaRobustAsymmetry.calculate_nihss_motor_score y).severity = "normal") ∧
    (∀ y : ℝ, 0.70 ≤ y → y ≤ 1.0 →
      (LambdaRobustAsymmetry.calculate_nihss_motor_score y).nihss_motor_score = 4 ∧
      (LambdaRobustAsymmetry.calculate_nihss_motor_score y).severity = "critical") ∧
    (∃ a b : ℝ, a < b ∧
      (LambdaRobustAsymmetry.calculate_nihss_motor_score a).nihss_motor_score = 4 ∧
      (LambdaRobustAsymmetry.calculate_nihss_motor_score b).nihss_motor_score = 0) := by
  have hA : ∀ y : ℝ, 1.0 < y → y < 20.0 →
      (LambdaRobustAsymmetry.calculate_nihss_motor_score y).nihss_motor_score = 0 ∧
      (LambdaRobustAsymmetry.calculate_nihss_motor_score y).severity = "normal" := by
    intro y hgt hlt
    have hdiv : y / 100.0 < 0.20 := by linarith
    simp [LambdaRobustAsymmetry.calculate_nihss_motor_score,
      LambdaRobustAsymmetry.NIHSS_0_NORMAL, hgt, hdiv]
  have hB : ∀ y : ℝ, 0.70 ≤ y → y ≤ 1.0 →
      (LambdaRobustAsymmetry.calculate_nihss_motor_score y).nihss_motor_score = 4 ∧
      (LambdaRobustAsymmetry.calculate_nihss_motor_score y).severity = "critical" := by
    intro y hlo hhi
    have hns : ¬ (y > 1.0) := not_lt.mpr hhi
    have k0 : ¬ (y < 0.20) := by intro hk; linarith
    have k1 : ¬ (y < 0.35) := by intro hk; linarith
    have k2 : ¬ (y < 0.50) := by intro hk; linarith
    have k3 : ¬ (y < 0.70) := not_lt.mpr hlo
    simp [LambdaRobustAsymmetry.calculate_nihss_motor_score,
      LambdaRobustAsymmetry.NIHSS_0_NORMAL, LambdaRobustAsymmetry.NIHSS_1_MILD,
      LambdaRobustAsymmetry.NIHSS_2_MODERATE, LambdaRobustAsymmetry.NIHSS_3_SEVERE,
      hns, k0, k1, k2, k3]
  exact ⟨hA, hB, 0.8, 2, by norm_num,
    (hB 0.8 (by norm_num) (by norm_num)).1, (hA 2 (by norm_num) (by norm_num)).1⟩

/-- Witness for C7: the ladder maps 2 to score 0 and 0.8 to score 4,
exhibiting the two regimes at concrete inputs. -/
theorem claim_C7_witness :
    (LambdaRobustAsymmetry.calculate_nihss_motor_score 2).nihss_motor_score = 0 ∧
    (LambdaRobustAsymmetry.calculate_nihss_motor_score 0.8).nihss_motor_score = 4 :=
  ⟨(claim_C7_ladder_not_monotone.1 2 (by norm_num) (by norm_num)).1,
   (claim_C7_ladder_not_monotone.2.1 0.8 (by norm_num) (by norm_num)).1⟩

/-- C8 counterexample: an asymmetry score of 0.226 is not classified as
normal by the scoring ladder of lambda_robust_asymmetry.py, because
0.226 lies above the 0.20 normal cutoff. -/
theorem claim_C8_counterexample :
    (LambdaRobustAsymmetry.calculate_nihss_motor_score 0.226).nihss_motor_score ≠ 0 ∧
    (LambdaRobustAsymmetry.calculate_nihss_motor_score 0.226).severity ≠ "normal" := by
  have hsev : (LambdaRobustAsymmetry.calculate_nihss_motor_score 0.226).severity = "mild" := by
    norm_num [LambdaRobustAsymmetry.calculate_nihss_motor_score,
      LambdaRobustAsymmetry.NIHSS_0_NORMAL, LambdaRobustAsymmetry.NIHSS_1_MILD]
  refine ⟨?_, ?_⟩
  · norm_num [LambdaRobustAsymmetry.calculate_nihss_motor_score,
      LambdaRobustAsymmetry.NIHSS_0_NORMAL, LambdaRobustAsymmetry.NIHSS_1_MILD]
  · rw [hsev]
    decide

/-- C8 amended: an asymmetry score of 0.226 is classified as mild with
NIHSS motor score 1 by the scoring ladder of lambda_robust_asymmetry.py. -/
theorem claim_C8_amended_mild :
    (LambdaRobustAsymmetry.calculate_nihss_motor_score 0.226).nihss_motor_score = 1 ∧
    (LambdaRobustAsymmetry.calculate_nihss_motor_score 0.226).severity = "mild" := by
  norm_num [LambdaRobustAsymmetry.calculate_nihss_motor_score,
    LambdaRobustAsymmetry.NIHSS_0_NORMAL, LambdaRobustAsymmetry.NIHSS_1_MILD]

/-- C6: in calculate_robust_asymmetry the drift flag is exactly the
5-percent comparison on the asymmetry score, independent of the severity
ladder; consequently every non-raising result whose score lies strictly
between 0.05 and 0.20 reports drift together with severity normal and
motor score 0. -/
theorem claim_C6_drift_flag_vs_ladder (keypoints : StrokeDetection.Json)
    (ar : LambdaRobustAsymmetry.RobustResult)
    (h : LambdaRobustAsymmetry.calculate_robust_asymmetry keypoints = .ok ar) :
    (ar.drift_detected = true ↔ 0.05 < ar.asymmetry_score) ∧
    (0.05 < ar.asymmetry_score → ar.asymmetry_score < 0.20 →
      ar.drift_detected = true ∧ ar.severity = some "normal" ∧
      ar.nihss_motor_score = some 0) := by
  rcases LambdaRobustAsymmetry.calculate_robust_asymmetry_ok_cases _ _ h with
    ⟨qa, -, -, rfl⟩ | ⟨qa, vd, s, m, -, -, rfl⟩
  · constructor
    · simp only [LambdaRobustAsymmetry.fallbackResult]
      norm_num
    · intro h1 h2
      simp only [LambdaRobustAsymmetry.fallbackResult] at h1
      norm_num at h1
  · constructor
    · by_cases hs : s > 0.05
      · simp [LambdaRobustAsymmetry.analysisResult, hs]
      · simp [LambdaRobustAsymmetry.analysisResult, hs]
    · intro h1 h2
      simp only [LambdaRobustAsymmetry.analysisResult] at h1 h2 ⊢
      have hns : ¬ (s > 1.0) := by push_neg; linarith
      refine ⟨by simp [h1], ?_, ?_⟩ <;>
        simp [LambdaRobustAsymmetry.calculate_nihss_motor_score,
          LambdaRobustAsymmetry.NIHSS_0_NORMAL, hns, h2]

/-- C5: the handler of lambda_robust_asymmetry.py is total and only ever
answers 200, 400 or 500, and whenever its try block raises, the broad
except returns the 500 response whose body carries the error string and
drift_detected false. -/
theorem claim_C5_broad_exception_to_500 (parse : String → Except String StrokeDetection.Json)
    (event : StrokeDetection.Json) :
    ((LambdaRobustAsymmetry.lambda_handler parse event).statusCode = 200 ∨
     (LambdaRobustAsymmetry.lambda_handler parse event).statusCode = 400 ∨
     (LambdaRobustAsymmetry.lambda_handler parse event).statusCode = 500) ∧
    ∀ e, LambdaRobustAsymmetry.processEvent parse event = .error e →
      LambdaRobustAsymmetry.lambda_handler parse event =
        LambdaRobustAsymmetry.errorResponse500 e ∧
      ("error", StrokeDetection.Json.str e) ∈
        (LambdaRobustAsymmetry.lambda_handler parse event).body ∧
      ("drift_detected", StrokeDetection.Json.bool false) ∈
        (LambdaRobustAsymmetry.lambda_handler parse event).body := by
  constructor
  · cases hp : LambdaRobustAsymmetry.processEvent parse event with
    | error e => simp [LambdaRobustAsymmetry.lambda_handler, hp,
        LambdaRobustAsymmetry.errorResponse500]
    | ok r =>
        rcases LambdaRobustAsymmetry.processEvent_ok_cases _ _ _ hp with ⟨msg, rfl⟩ | ⟨ar, rfl⟩ <;>
          simp [LambdaRobustAsymmetry.lambda_handler, hp,
            LambdaRobustAsymmetry.errorResponse400, LambdaRobustAsymmetry.successResponse]
  · intro e he
    refine ⟨?_, ?_, ?_⟩ <;>
      simp [LambdaRobustAsymmetry.lambda_handler, he, LambdaRobustAsymmetry.errorResponse500]

/-- C9: every 200 response of the handler of lambda_robust_asymmetry.py
is the proxy envelope with the standard headers whose body dict carries
the keys drift_detected, asymmetry_score, nihss_motor_score, severity
and message. -/
theorem claim_C9_success_body_fields (parse : String → Except String StrokeDetection.Json)
    (event : StrokeDetection.Json)
    (h200 : (LambdaRobustAsymmetry.lambda_handler parse event).statusCode = 200) :
    (LambdaRobustAsymmetry.lambda_handler parse event).headers = StrokeDetection.stdHeaders ∧
    "drift_detected" ∈ (LambdaRobustAsymmetry.lambda_handler parse event).body.map Prod.fst ∧
    "asymmetry_score" ∈ (LambdaRobustAsymmetry.lambda_handler parse event).body.map Prod.fst ∧
    "nihss_motor_score" ∈ (LambdaRobustAsymmetry.lambda_handler parse event).body.map Prod.fst ∧
    "severity" ∈ (LambdaRobustAsymmetry.lambda_handler parse event).body.map Prod.fst ∧
    "message" ∈ (LambdaRobustAsymmetry.lambda_handler parse event).body.map Prod.fst := by
  cases hp : LambdaRobustAsymmetry.processEvent parse event with
  | error e =>
      simp [LambdaRobustAsymmetry.lambda_handler, hp,
        LambdaRobustAsymmetry.errorResponse500] at h200
  | ok r =>
      rcases LambdaRobustAsymmetry.processEvent_ok_cases _ _ _ hp with ⟨msg, rfl⟩ | ⟨ar, rfl⟩
      · simp [LambdaRobustAsymmetry.lambda_handler, hp,
          LambdaRobustAsymmetry.errorResponse400] at h200
      · simp [LambdaRobustAsymmetry.lambda_handler, hp,
          LambdaRobustAsymmetry.successResponse, StrokeDetection.stdHeaders]

/-- C1 amended: for the NIHSS-compliant analysis (the function whose
arm lengths are the vertical distances of the spec formula), every pose
whose four wrist and shoulder y-values are present and numeric, whose
two arm angles pass the 90-degree positioning check, and whose mean arm
length passes the 0.01 guard gets the asymmetry score
vertical drift divided by the mean of the two arm lengths. -/
theorem claim_C1_amended_formula (keypoints : StrokeDetection.Json) (lwy rwy lsy rsy : ℝ)
    (hx : LambdaNihssCompliant.extract_wrist_shoulder_ys keypoints = .ok (lwy, rwy, lsy, rsy))
    (hl80 : 80 ≤ LambdaNihssCompliant.calculate_arm_angle lwy lsy)
    (hl100 : LambdaNihssCompliant.calculate_arm_angle lwy lsy ≤ 100)
    (hr80 : 80 ≤ LambdaNihssCompliant.calculate_arm_angle rwy rsy)
    (hr100 : LambdaNihssCompliant.calculate_arm_angle rwy rsy ≤ 100)
    (hguard : ¬ ((|lwy - lsy| + |rwy - rsy|) / 2 < 0.01)) :
    (LambdaNihssCompliant.analyze_nihss_compliant_asymmetry keypoints).asymmetry_score =
      |lwy - rwy| / ((|lwy - lsy| + |rwy - rsy|) / 2) ∧
    (LambdaNihssCompliant.analyze_nihss_compliant_asymmetry keypoints).error = none := by
  simp [LambdaNihssCompliant.analyze_nihss_compliant_asymmetry, hx,
    hl80, hl100, hr80, hr100, hguard]

/-- C1 counterexample: for the pose keypointsLongArms all four keypoints
are present and the mean arm length 0.65 passes the 0.01 guard, yet the
analysis returns asymmetry 0 because the positioning check fails, and 0
differs from the value of the spec formula. -/
theorem claim_C1_counterexample :
    LambdaNihssCompliant.extract_wrist_shoulder_ys Witnesses.keypointsLongArms =
      .ok (0.9, 0.8, 0.2, 0.2) ∧
    ¬ ((|(0.9:ℝ) - 0.2| + |(0.8:ℝ) - 0.2|) / 2 < 0.01) ∧
    (LambdaNihssCompliant.analyze_nihss_compliant_asymmetry
        Witnesses.keypointsLongArms).asymmetry_score = 0 ∧
    (0:ℝ) ≠ |(0.9:ℝ) - 0.8| / ((|(0.9:ℝ) - 0.2| + |(0.8:ℝ) - 0.2|) / 2) := by
  have hext : LambdaNihssCompliant.extract_wrist_shoulder_ys Witnesses.keypointsLongArms =
      .ok (0.9, 0.8, 0.2, 0.2) := by
    simp [LambdaNihssCompliant.extract_wrist_shoulder_ys, Witnesses.keypointsLongArms,
      StrokeDetection.subscript, StrokeDetection.jlookup, StrokeDetection.asNum,
      StrokeDetection.ok_bind, StrokeDetection.pure_eq_ok]
  have hla : LambdaNihssCompliant.calculate_arm_angle 0.9 0.2 = 27 := by
    norm_num [LambdaNihssCompliant.calculate_arm_angle, abs_of_nonneg]
  have hra : LambdaNihssCompliant.calculate_arm_angle 0.8 0.2 = 36 := by
    norm_num [LambdaNihssCompliant.calculate_arm_angle, abs_of_nonneg]
  refine ⟨hext, by norm_num [abs_of_nonneg], ?_, by norm_num [abs_of_nonneg]⟩
  have hnp : ¬ ((80 ≤ LambdaNihssCompliant.calculate_arm_angle 0.9 0.2 ∧
      LambdaNihssCompliant.calculate_arm_angle 0.9 0.2 ≤ 100) ∧
      (80 ≤ LambdaNihssCompliant.calculate_arm_angle 0.8 0.2 ∧
      LambdaNihssCompliant.calculate_arm_angle 0.8 0.2 ≤ 100)) := by
    rw [hla, hra]
    norm_num
  simp [LambdaNihssCompliant.analyze_nihss_compliant_asymmetry, hext, hnp]
  norm_num

/-- Witness for the amended C1 at the pose keypointsCompliant: both arm
angles are 81 degrees, the mean arm length is 0.1, and the asymmetry
score equals the spec formula. -/
theorem claim_C1_witness :
    (LambdaNihssCompliant.analyze_nihss_compliant_asymmetry
        Witnesses.keypointsCompliant).asymmetry_score =
      |(0.5:ℝ) - 0.52| / ((|(0.5:ℝ) - 0.4| + |(0.52:ℝ) - 0.42|) / 2) ∧
    (LambdaNihssCompliant.analyze_nihss_compliant_asymmetry
        Witnesses.keypointsCompliant).error = none :=
  claim_C1_amended_formula Witnesses.keypointsCompliant 0.5 0.52 0.4 0.42
    (by simp [LambdaNihssCompliant.extract_wrist_shoulder_ys, Witnesses.keypointsCompliant,
      StrokeDetection.subscript, StrokeDetection.jlookup, StrokeDetection.asNum,
      StrokeDetection.ok_bind, StrokeDetection.pure_eq_ok])
    (by norm_num [LambdaNihssCompliant.calculate_arm_angle, abs_of_nonneg])
    (by norm_num [LambdaNihssCompliant.calculate_arm_angle, abs_of_nonneg])
    (by norm_num [LambdaNihssCompliant.calculate_arm_angle, abs_of_nonneg])
    (by norm_num [LambdaNihssCompliant.calculate_arm_angle, abs_of_nonneg])
    (by norm_num [abs_of_nonneg])

namespace Witnesses

open StrokeDetection LambdaRobustAsymmetry

/-- Quality assessment of the steady pose: both arms 0.5 long, no
length difference, quality good. -/
lemma assess_steady :
    assess_keypoint_detection_quality keypointsSteady =
      .ok ⟨"good", "Good arm length consistency", some 0, some 0.5, some 0.5, some 0.5⟩ := by
  simp [assess_keypoint_detection_quality, keypointsSteady, dictGetD, dictGetSome,
    keypointPresent, allKeypointsPresent, subscript, asNum, jlookup,
    ok_bind, pure_eq_ok, armLength_vertical]
  norm_num [QualityAssessment.mk.injEq, abs_of_nonneg, max_def]

/-- Full analysis of the steady pose: normalised method, score 0. -/
lemma calc_steady :
    calculate_robust_asymmetry keypointsSteady =
      .ok (analysisResult ⟨"good", "Good arm length consistency", some 0, some 0.5, some 0.5, some 0.5⟩
        0 0 "normalized_vertical_drift") := by
  simp only [calculate_robust_asymmetry, assess_steady, ok_bind]
  simp [keypointsSteady, subscript, jlookup, asNum, ok_bind, pure_eq_ok, armLength_vertical]

end Witnesses

/-- C4 amended: for every request body whose force_drift entry is truthy
and whose keypoints dict makes calculate_robust_asymmetry return without
raising and without the very-poor error (in particular all four
keypoints carry numeric coordinates and the quality check does not yield
very_poor), the handler answers 200 and reports the forced values
drift_detected true, asymmetry_score 0.08, nihss_motor_score 3 and
severity severe, regardless of the actual coordinates. -/
theorem claim_C4_amended_forced_drift (parse : String → Except String StrokeDetection.Json)
    (bodyMembers : List (String × StrokeDetection.Json))
    (kps fd : StrokeDetection.Json) (ar : LambdaRobustAsymmetry.RobustResult)
    (hk : StrokeDetection.jlookup bodyMembers "keypoints" = some kps)
    (hf : StrokeDetection.jlookup bodyMembers "force_drift" = some fd)
    (hfd : StrokeDetection.truthy fd = true)
    (hcalc : LambdaRobustAsymmetry.calculate_robust_asymmetry kps = .ok ar)
    (herr : ar.error = none) :
    (LambdaRobustAsymmetry.lambda_handler parse
        (.obj [("body", .obj bodyMembers)])).statusCode = 200 ∧
    ("drift_detected", StrokeDetection.Json.bool true) ∈
      (LambdaRobustAsymmetry.lambda_handler parse (.obj [("body", .obj bodyMembers)])).body ∧
    ("asymmetry_score", StrokeDetection.Json.num 0.08) ∈
      (LambdaRobustAsymmetry.lambda_handler parse (.obj [("body", .obj bodyMembers)])).body ∧
    ("nihss_motor_score", StrokeDetection.Json.num 3) ∈
      (LambdaRobustAsymmetry.lambda_handler parse (.obj [("body", .obj bodyMembers)])).body ∧
    ("severity", StrokeDetection.Json.str "severe") ∈
      (LambdaRobustAsymmetry.lambda_handler parse (.obj [("body", .obj bodyMembers)])).body ∧
    ("message", StrokeDetection.Json.str "FORCED DRIFT for testing purposes") ∈
      (LambdaRobustAsymmetry.lambda_handler parse (.obj [("body", .obj bodyMembers)])).body := by
  have hproc : LambdaRobustAsymmetry.processEvent parse (.obj [("body", .obj bodyMembers)]) =
      .ok (LambdaRobustAsymmetry.successResponse { ar with
        drift_detected := true,
        asymmetry_score := 0.08,
        nihss_motor_score := some 3,
        severity := some "severe",
        clinical_interpretation := some "FORCED DRIFT for testing purposes" }) := by
    simp [LambdaRobustAsymmetry.processEvent, StrokeDetection.extractBody,
      StrokeDetection.jlookup, StrokeDetection.dictGetD, hk, hf, hcalc, herr, hfd,
      StrokeDetection.ok_bind, StrokeDetection.pure_eq_ok]
  refine ⟨?_, ?_, ?_, ?_, ?_, ?_⟩ <;>
    simp [LambdaRobustAsymmetry.lambda_handler, hproc, LambdaRobustAsymmetry.successResponse]

/-- C4 counterexample: with an empty keypoints dict the quality check
reports poor (not very_poor), so the body passes the quality condition
of the claim, and force_drift is truthy, yet the handler answers 500,
because extracting the absent left_wrist key raises KeyError. -/
theorem claim_C4_counterexample :
    StrokeDetection.truthy (.bool true) = true ∧
    LambdaRobustAsymmetry.assess_keypoint_detection_quality (.obj []) =
      .ok ⟨"poor", "Missing required keypoints", none, none, none, none⟩ ∧
    (LambdaRobustAsymmetry.lambda_handler Witnesses.failParse
        Witnesses.eventEmptyKeypoints).statusCode = 500 := by
  have hassess : LambdaRobustAsymmetry.assess_keypoint_detection_quality (.obj []) =
      .ok ⟨"poor", "Missing required keypoints", none, none, none, none⟩ := by
    simp [LambdaRobustAsymmetry.assess_keypoint_detection_quality,
      LambdaRobustAsymmetry.allKeypointsPresent, LambdaRobustAsymmetry.keypointPresent,
      StrokeDetection.dictGetD, StrokeDetection.dictGetSome, StrokeDetection.jlookup,
      StrokeDetection.ok_bind, StrokeDetection.pure_eq_ok]
  have hcalc : LambdaRobustAsymmetry.calculate_robust_asymmetry (.obj []) =
      .error "KeyError" := by
    simp [LambdaRobustAsymmetry.calculate_robust_asymmetry, hassess,
      StrokeDetection.subscript, StrokeDetection.jlookup,
      StrokeDetection.ok_bind, StrokeDetection.error_bind, StrokeDetection.pure_eq_ok]
  refine ⟨by simp [StrokeDetection.truthy], hassess, ?_⟩
  simp [LambdaRobustAsymmetry.lambda_handler, LambdaRobustAsymmetry.processEvent,
    StrokeDetection.extractBody, Witnesses.eventEmptyKeypoints, StrokeDetection.dictGetD,
    StrokeDetection.jlookup, hcalc, StrokeDetection.ok_bind, StrokeDetection.error_bind,
    StrokeDetection.pure_eq_ok, LambdaRobustAsymmetry.errorResponse500]

/-- Witness for the amended C4: on a well-formed steady pose with
force_drift set, the handler answers 200 with the forced asymmetry 0.08
and severity severe. -/
theorem claim_C4_witness :
    (LambdaRobustAsymmetry.lambda_handler Witnesses.failParse
        Witnesses.eventForcedDrift).statusCode = 200 ∧
    ("asymmetry_score", StrokeDetection.Json.num 0.08) ∈
      (LambdaRobustAsymmetry.lambda_handler Witnesses.failParse Witnesses.eventForcedDrift).body ∧
    ("severity", StrokeDetection.Json.str "severe") ∈
      (LambdaRobustAsymmetry.lambda_handler Witnesses.failParse Witnesses.eventForcedDrift).body := by
  have h := claim_C4_amended_forced_drift Witnesses.failParse
    [("keypoints", Witnesses.keypointsSteady), ("force_drift", StrokeDetection.Json.bool true)]
    Witnesses.keypointsSteady (StrokeDetection.Json.bool true)
    (LambdaRobustAsymmetry.analysisResult
      ⟨"good", "Good arm length consistency", some 0, some 0.5, some 0.5, some 0.5⟩
      0 0 "normalized_vertical_drift")
    (by simp [StrokeDetection.jlookup]) (by simp [StrokeDetection.jlookup])
    (by simp [StrokeDetection.truthy]) Witnesses.calc_steady
    (by simp [LambdaRobustAsymmetry.analysisResult])
  exact ⟨h.1, h.2.2.1, h.2.2.2.2.1⟩

namespace Witnesses

open StrokeDetection LambdaRobustAsymmetry

/-- Quality assessment of the mid-drift pose: arms 0.53 and 0.47 long,
quality good. -/
lemma assess_mid :
    assess_keypoint_detection_quality keypointsMidDrift =
      .ok ⟨"good", "Good arm length consistency",
        some (0.06 / 0.53), some 0.5, some 0.53, some 0.47⟩ := by
  simp [assess_keypoint_detection_quality, keypointsMidDrift, dictGetD, dictGetSome,
    keypointPresent, allKeypointsPresent, subscript, asNum, jlookup,
    ok_bind, pure_eq_ok, armLength_vertical]
  norm_num [QualityAssessment.mk.injEq, abs_of_nonneg, max_def]

/-- Full analysis of the mid-drift pose: drift 0.06 over mean arm length
0.5 gives score 0.12. -/
lemma calc_mid :
    calculate_robust_asymmetry keypointsMidDrift =
      .ok (analysisResult ⟨"good", "Good arm length consistency",
        some (0.06 / 0.53), some 0.5, some 0.53, some 0.47⟩
        0.06 0.12 "normalized_vertical_drift") := by
  simp only [calculate_robust_asymmetry, assess_mid, ok_bind]
  simp [keypointsMidDrift, subscript, jlookup, asNum, ok_bind, pure_eq_ok, armLength_vertical]
  norm_num [analysisResult, RobustResult.mk.injEq, abs_of_nonneg]

/-- The handler on the steady event answers with the plain 200 success
response. -/
lemma handler_steady :
    lambda_handler failParse eventSteady =
      successResponse (analysisResult ⟨"good", "Good arm length consistency",
        some 0, some 0.5, some 0.5, some 0.5⟩ 0 0 "normalized_vertical_drift") := by
  simp [lambda_handler, processEvent, extractBody, eventSteady, dictGetD, jlookup,
    calc_steady, ok_bind, pure_eq_ok, truthy, analysisResult]

end Witnesses

/-- Witness for C5: a malformed body string makes json.loads raise, and
the handler answers with the 500 response carrying the error text and
drift_detected false. -/
theorem claim_C5_witness :
    LambdaRobustAsymmetry.lambda_handler Witnesses.failParse Witnesses.eventBadBody =
      LambdaRobustAsymmetry.errorResponse500 "JSONDecodeError" ∧
    ("drift_detected", StrokeDetection.Json.bool false) ∈
      (LambdaRobustAsymmetry.lambda_handler Witnesses.failParse Witnesses.eventBadBody).body := by
  have hpe : LambdaRobustAsymmetry.processEvent Witnesses.failParse Witnesses.eventBadBody =
      .error "JSONDecodeError" := by
    simp [LambdaRobustAsymmetry.processEvent, StrokeDetection.extractBody,
      Witnesses.eventBadBody, Witnesses.failParse, StrokeDetection.jlookup,
      StrokeDetection.error_bind]
  have h := claim_C5_broad_exception_to_500 Witnesses.failParse Witnesses.eventBadBody
  exact ⟨(h.2 "JSONDecodeError" hpe).1, (h.2 "JSONDecodeError" hpe).2.2⟩

/-- Witness for C6: the mid-drift pose has score 0.12, and the analysis
reports drift together with severity normal and motor score 0. -/
theorem claim_C6_witness :
    ∃ ar : LambdaRobustAsymmetry.RobustResult,
      LambdaRobustAsymmetry.calculate_robust_asymmetry Witnesses.keypointsMidDrift = .ok ar ∧
      ar.drift_detected = true ∧ ar.severity = some "normal" ∧
      ar.nihss_motor_score = some 0 := by
  refine ⟨_, Witnesses.calc_mid, ?_⟩
  have h := (claim_C6_drift_flag_vs_ladder Witnesses.keypointsMidDrift _ Witnesses.calc_mid).2
    (by simp [LambdaRobustAsymmetry.analysisResult]; norm_num)
    (by simp [LambdaRobustAsymmetry.analysisResult]; norm_num)
  exact h

/-- Witness for C9: the steady event produces a 200 response, whose body
carries the five required keys. -/
theorem claim_C9_witness :
    "drift_detected" ∈ (LambdaRobustAsymmetry.lambda_handler Witnesses.failParse
        Witnesses.eventSteady).body.map Prod.fst ∧
    "severity" ∈ (LambdaRobustAsymmetry.lambda_handler Witnesses.failParse
        Witnesses.eventSteady).body.map Prod.fst ∧
    "message" ∈ (LambdaRobustAsymmetry.lambda_handler Witnesses.failParse
        Witnesses.eventSteady).body.map Prod.fst := by
  have h200 : (LambdaRobustAsymmetry.lambda_handler Witnesses.failParse
      Witnesses.eventSteady).statusCode = 200 := by
    simp [Witnesses.handler_steady, LambdaRobustAsymmetry.successResponse]
  have h := claim_C9_success_body_fields Witnesses.failParse Witnesses.eventSteady h200
  exact ⟨h.2.1, h.2.2.2.2.1, h.2.2.2.2.2⟩

/-- C10 counterexample: one invocation of test_fixed_lambda performs
three blocking HTTP calls, one per scenario, not at most one. -/
theorem claim_C10_counterexample :
    TestFixedLambda.test_fixed_lambda_calls.length = 3 ∧
    ¬ (TestFixedLambda.test_fixed_lambda_calls.length ≤ 1) := by
  constructor <;>
    simp [TestFixedLambda.test_fixed_lambda_calls, TestFixedLambda.test_scenarios,
      TestFixedLambda.scenario_calls]

/-- C10 amended: every requests.post of the cited test scripts passes a
constant timeout between 10 and 30 seconds; test_threshold_value and
test_aws_integration perform at most one blocking call per invocation,
and test_fixed_lambda performs exactly one blocking call per test
scenario (hence three per invocation, one per scenario). -/
theorem claim_C10_amended_timeouts :
    (∀ c ∈ TestThresholds.test_threshold_value_calls, 10 ≤ c.timeout ∧ c.timeout ≤ 30) ∧
    (∀ c ∈ TestAwsIntegration.test_aws_integration_calls, 10 ≤ c.timeout ∧ c.timeout ≤ 30) ∧
    (∀ c ∈ TestFixedLambda.test_fixed_lambda_calls, 10 ≤ c.timeout ∧ c.timeout ≤ 30) ∧
    TestThresholds.test_threshold_value_calls.length ≤ 1 ∧
    TestAwsIntegration.test_aws_integration_calls.length ≤ 1 ∧
    ∀ s ∈ TestFixedLambda.test_scenarios, (TestFixedLambda.scenario_calls s).length = 1 := by
  refine ⟨?_, ?_, ?_, ?_, ?_, ?_⟩
  · intro c hc
    simp [TestThresholds.test_threshold_value_calls] at hc
    simp [hc]
  · intro c hc
    simp [TestAwsIntegration.test_aws_integration_calls] at hc
    simp [hc]
  · intro c hc
    simp [TestFixedLambda.test_fixed_lambda_calls, TestFixedLambda.test_scenarios,
      TestFixedLambda.scenario_calls] at hc
    simp [hc]
  · simp [TestThresholds.test_threshold_value_calls]
  · simp [TestAwsIntegration.test_aws_integration_calls]
  · intro s _
    simp [TestFixedLambda.scenario_calls]

/-- Witness for the amended C10 at the call of test_threshold_value. -/
theorem claim_C10_witness :
    10 ≤ (TestScripts.HttpCall.mk TestThresholds.LAMBDA_URL 10).timeout ∧
    (TestScripts.HttpCall.mk TestThresholds.LAMBDA_URL 10).timeout ≤ 30 :=
  claim_C10_amended_timeouts.1 ⟨TestThresholds.LAMBDA_URL, 10⟩
    (by simp [TestThresholds.test_threshold_value_calls])
